import Mathlib

/-!
Shallow embedding of src/miniprogram/utils/userInfoManager.js.

The file defines a class UserInfoManager (a singleton) with methods
getUserInfo, getCachedUserInfo, setCachedUserInfo, clearCachedUserInfo and
reportError, built over the host collaborators wx.getStorageSync,
wx.setStorageSync, wx.removeStorageSync, wx.getUserProfile and console.

Modelling choices:
* JavaScript values are the inductive JSVal (undefined, null, booleans,
  integer numbers, strings, objects as association lists).  Floating point
  NaN and arrays do not occur in this module and are left out of the carrier.
* Property access follows JavaScript: reading a property of null or
  undefined throws a TypeError; reading a missing property of an object or
  of another primitive yields undefined.
* The string stored under the cache key is viewed through the result of
  JSON.parse on it: CacheStr.absent is the empty string that
  wx.getStorageSync returns for a missing key (falsy), CacheStr.unparseable
  is a non-empty string JSON.parse throws on, CacheStr.parsed v is a
  non-empty string JSON.parse maps to v.  JSON.stringify of the record
  built by setCachedUserInfo always yields a non-empty parseable string,
  and JSON.stringify drops object properties whose value is undefined
  (jsonStrip models this, so parse after stringify gives jsonStrip).
* Exceptions are modelled with Except; every try/catch of the source is a
  match on the Except value.  Each host primitive may throw, controlled by
  the Beh record (fault injection per primitive) and the fetch outcome.
* Date.now() is passed in explicitly; getUserInfo takes two instants, one
  for the cache read and one for the cache write after the awaited fetch.
-/

/-- A JavaScript value as this module can observe it: undefined, null,
booleans, (integer) numbers, strings and plain objects. -/
inductive JSVal where
  | undefined : JSVal
  | null : JSVal
  | boolean (b : Bool) : JSVal
  | number (n : Int) : JSVal
  | str (s : String) : JSVal
  | obj (fields : List (String × JSVal)) : JSVal
deriving Repr

/-- A thrown JavaScript exception: either a value thrown / used as a promise
rejection by a collaborator, or an engine TypeError raised by a property
access on null or undefined. -/
inductive JSErr where
  | thrown (v : JSVal) : JSErr
  | typeError (msg : String) : JSErr
deriving Repr

/-- JavaScript truthiness of a JSVal (the `if (x)` test). -/
def truthy : JSVal → Bool
  | .undefined => false
  | .null => false
  | .boolean b => b
  | .number n => n != 0
  | .str s => s ≠ ""
  | .obj _ => true

/-- JavaScript property read `v[k]`: throws a TypeError on null and
undefined, looks the key up on objects (missing key gives undefined), and
gives undefined on the other primitives (none of the keys this module reads
- data, timestamp, userInfo, message, stack - exists on their prototypes). -/
def getProp (v : JSVal) (k : String) : Except JSErr JSVal :=
  match v with
  | .undefined => .error (.typeError ("Cannot read properties of undefined - reading " ++ k))
  | .null => .error (.typeError ("Cannot read properties of null - reading " ++ k))
  | .obj fields => .ok ((fields.lookup k).getD .undefined)
  | _ => .ok .undefined

/-- Digits of a decimal numeral to a Nat; none if empty or a non-digit. -/
def digitsToNat (s : String) : Option Nat :=
  if s.isEmpty then none
  else
    s.foldl
      (fun acc c =>
        match acc with
        | none => none
        | some n => if c.isDigit then some (n * 10 + (c.toNat - 48)) else none)
      (some 0)

/-- JavaScript string-to-number coercion restricted to the integer numerals
this model carries: the empty (or all-whitespace) string is 0, an optionally
signed run of digits is its value, anything else is NaN (none). -/
def strToNumber (s : String) : Option Int :=
  let t := s.trim
  if t = "" then some 0
  else if t.startsWith "-" then (digitsToNat (t.drop 1)).map (fun n => -(n : Int))
  else if t.startsWith "+" then (digitsToNat (t.drop 1)).map (fun n => (n : Int))
  else (digitsToNat t).map (fun n => (n : Int))

/-- JavaScript ToNumber on a JSVal; none models NaN.  A plain object
coerces via its default string form and is NaN. -/
def toNumber : JSVal → Option Int
  | .undefined => none
  | .null => some 0
  | .boolean b => some (if b then 1 else 0)
  | .number n => some n
  | .str s => strToNumber s
  | .obj _ => none

mutual

/-- The effect of a JSON.stringify / JSON.parse round trip on a defined
value: object properties whose value is undefined are dropped (recursively);
every other value this carrier holds survives unchanged. -/
def jsonStrip : JSVal → JSVal
  | .obj fields => .obj (jsonStripFields fields)
  | v => v

/-- jsonStrip on the field list of an object. -/
def jsonStripFields : List (String × JSVal) → List (String × JSVal)
  | [] => []
  | (_, .undefined) :: rest => jsonStripFields rest
  | (k, v) :: rest => (k, jsonStrip v) :: jsonStripFields rest

end

mutual

/-- A value is JSON-representable host data: no undefined occurs in it.
The profile objects the host API hands over are of this shape. -/
def jsonSafe : JSVal → Bool
  | .undefined => false
  | .obj fields => jsonSafeFields fields
  | _ => true

/-- jsonSafe on the field list of an object. -/
def jsonSafeFields : List (String × JSVal) → Bool
  | [] => true
  | (_, v) :: rest => jsonSafe v && jsonSafeFields rest

end

/-- The string stored under the cache key, seen through JSON.parse:
absent is the falsy empty string wx.getStorageSync gives for a missing key,
unparseable is a non-empty string JSON.parse throws on, parsed v is a
non-empty string JSON.parse maps to the value v. -/
inductive CacheStr where
  | absent : CacheStr
  | unparseable (s : String) : CacheStr
  | parsed (v : JSVal) : CacheStr
deriving Repr

/-- Outcome the host chooses for the awaited wx.getUserProfile call:
the promise rejects with a value, or resolves with a response value
(the code then reads res.userInfo on it). -/
inductive FetchBeh where
  | rejects (e : JSVal) : FetchBeh
  | resolves (res : JSVal) : FetchBeh
deriving Repr

/-- Fault injection for one getUserInfo run: whether each storage primitive
throws when (and if) it is called, and the fetch outcome. -/
structure Beh where
  readFails : Bool
  removeFails : Bool
  writeFails : Bool
  fetch : FetchBeh
deriving Repr

/-- Observable state threaded through a run: the stored cache string, how
often the fetch collaborator was invoked, and the entries the reportError
sink received (action name and error). -/
structure St where
  storage : CacheStr
  fetchCalls : Nat
  reports : List (String × JSErr)
deriving Repr

/-- this.CACHE_EXPIRE, line 14: one day in milliseconds. -/
def CACHE_EXPIRE : Int := 86400000

/-- this.cacheKey, line 15. -/
def cacheKey : String := "user_info_cache"

/-- Line 62, the guard Date.now() - cache.timestamp < this.CACHE_EXPIRE:
cache.timestamp is coerced by the subtraction; a NaN comparison is false. -/
def freshCheck (now : Int) (tsv : JSVal) : Bool :=
  match toNumber tsv with
  | none => false
  | some ts => decide (now - ts < CACHE_EXPIRE)

/-- clearCachedUserInfo, lines 94-101: wx.removeStorageSync under
try/catch, so a remove failure is logged and leaves the entry in place. -/
def clearCachedUserInfo (removeFails : Bool) (st : St) : St :=
  if removeFails then st else { st with storage := CacheStr.absent }

/-- getCachedUserInfo, lines 55-73: read the raw string (a throwing read is
caught and gives null), return null on a falsy string, JSON.parse it (a
parse throw is caught and gives null), then either return cache.data while
fresh or clear the entry and return null.  The returned JSVal is the JS
return value; the miss paths return the JS null. -/
def getCachedUserInfo (readFails removeFails : Bool) (now : Int) (st : St) :
    JSVal × St :=
  if readFails then (JSVal.null, st)
  else
    match st.storage with
    | .absent => (JSVal.null, st)
    | .unparseable _ => (JSVal.null, st)
    | .parsed cache =>
      match getProp cache "timestamp" with
      | .error _ => (JSVal.null, st)
      | .ok tsv =>
        if freshCheck now tsv then
          match getProp cache "data" with
          | .error _ => (JSVal.null, st)
          | .ok d => (d, st)
        else
          (JSVal.null, clearCachedUserInfo removeFails st)

/-- The JSON.parse view of the string JSON.stringify produces at line 85
for the record of lines 81-84: stringify drops undefined-valued properties,
including a top-level undefined data field. -/
def recordVal (userInfo : JSVal) (now : Int) : JSVal :=
  match userInfo with
  | .undefined => .obj [("timestamp", .number now)]
  | u => .obj [("data", jsonStrip u), ("timestamp", .number now)]

/-- setCachedUserInfo, lines 79-89: build the record with Date.now(),
stringify it and store it under the cache key; a throwing write is caught
and logged, leaving the stored entry unchanged. -/
def setCachedUserInfo (writeFails : Bool) (now : Int) (userInfo : JSVal)
    (st : St) : St :=
  if writeFails then st
  else { st with storage := CacheStr.parsed (recordVal userInfo now) }

/-- A property read on a caught error value, as reportError performs with
error.message and error.stack: an engine TypeError is an Error object whose
message and stack are strings; a thrown host value is read with ordinary
property access (and throws again when it is null or undefined). -/
def errProp (e : JSErr) (k : String) : Except JSErr JSVal :=
  match e with
  | .typeError m =>
      .ok (if k = "message" then JSVal.str m else JSVal.str ("TypeError: " ++ m))
  | .thrown v => getProp v k

/-- reportError, lines 108-111: console.warn of an object holding action,
error.message and error.stack.  It has no try/catch, so a property read
that throws (error being null or undefined) escapes and nothing is
reported; otherwise the sink records the entry. -/
def reportError (action : String) (error : JSErr) (st : St) :
    Except JSErr St :=
  match errProp error "message" with
  | .error e => .error e
  | .ok _ =>
    match errProp error "stack" with
    | .error e => .error e
    | .ok _ => .ok { st with reports := st.reports ++ [(action, error)] }

/-- The catch block of getUserInfo, lines 43-48: console.error the failure,
report it, return null.  When reportError itself throws, that exception
leaves getUserInfo and the state keeps whatever was done before the catch. -/
def catchBlock (e : JSErr) (st : St) : Except JSErr JSVal × St :=
  match reportError "getUserInfo" e st with
  | .ok st' => (.ok JSVal.null, st')
  | .error e' => (.error e', st)

/-- The try block of getUserInfo, lines 34-48: await wx.getUserProfile
(counted as one fetch invocation), read res.userInfo, cache it at the
post-await instant and return it; any throw in the block runs the catch
block. -/
def fetchAndCache (beh : Beh) (now : Int) (st₀ : St) :
    Except JSErr JSVal × St :=
  let st := { st₀ with fetchCalls := st₀.fetchCalls + 1 }
  match beh.fetch with
  | .rejects e => catchBlock (.thrown e) st
  | .resolves res =>
    match getProp res "userInfo" with
    | .error e => catchBlock e st
    | .ok u => (.ok u, setCachedUserInfo beh.writeFails now u st)

/-- getUserInfo, lines 23-49: unless forceRefresh, try the cache first and
return a truthy cached value; otherwise run the fetch-and-cache try block.
The Except result is the promise outcome (ok resolves, error rejects);
now₁ is Date.now() during the cache read, now₂ during the cache write
after the awaited fetch. -/
def getUserInfo (forceRefresh : Bool) (beh : Beh) (now₁ now₂ : Int)
    (st : St) : Except JSErr JSVal × St :=
  if forceRefresh then fetchAndCache beh now₂ st
  else
    let (cachedInfo, st₁) := getCachedUserInfo beh.readFails beh.removeFails now₁ st
    if truthy cachedInfo then (.ok cachedInfo, st₁)
    else fetchAndCache beh now₂ st₁

/-- The UserInfoManager instance data set up by the constructor body,
lines 13-15. -/
structure UserInfoManagerInst where
  CACHE_EXPIRE : Int
  cacheKey : String
deriving Repr

/-- The constructor, lines 6-16, over the static UserInfoManager.instance
slot: an existing instance is returned as is (new on a class constructor
that returns an object yields that object); otherwise the fresh instance is
stored in the slot and initialised. -/
def newUserInfoManager (instSlot : Option UserInfoManagerInst) :
    UserInfoManagerInst × Option UserInfoManagerInst :=
  match instSlot with
  | some i => (i, some i)
  | none =>
    let i : UserInfoManagerInst := ⟨86400000, "user_info_cache"⟩
    (i, some i)

/-- Line 115, the module-level construction whose result is exported. -/
def userInfoManager : UserInfoManagerInst := (newUserInfoManager none).1

/-- Whether the fetch outcome avoids a bare null or undefined rejection
value; reading error.message on such a value inside reportError would
itself throw. -/
def benignFetch : FetchBeh → Bool
  | .rejects JSVal.null => false
  | .rejects JSVal.undefined => false
  | _ => true

/-- A concrete profile object, used by the witnesses below. -/
def profA : JSVal := JSVal.obj [("name", JSVal.str "A")]

/-- A concrete state with no stored record, used by the witnesses below. -/
def stA : St := ⟨CacheStr.absent, 0, []⟩

/-- A concrete state holding the record written for profA at instant 0,
used by the witnesses below. -/
def stRec : St := ⟨CacheStr.parsed (recordVal profA 0), 0, []⟩

/-- Concrete collaborator behaviour whose fetch resolves with a response
carrying profA, used by the witnesses below. -/
def behResolve : Beh := ⟨false, false, false, FetchBeh.resolves (JSVal.obj [("userInfo", profA)])⟩
mutual

theorem jsonStrip_of_safe : ∀ v : JSVal, jsonSafe v = true → jsonStrip v = v
  | .null, _ => rfl
  | .boolean _, _ => rfl
  | .number _, _ => rfl
  | .str _, _ => rfl
  | .undefined, h => absurd h (by simp [jsonSafe])
  | .obj fields, h => by
      have hf := jsonStripFields_of_safe fields (by simpa [jsonSafe] using h)
      simp [jsonStrip, hf]

theorem jsonStripFields_of_safe :
    ∀ fs : List (String × JSVal), jsonSafeFields fs = true → jsonStripFields fs = fs
  | [], _ => rfl
  | (k, v) :: rest, h => by
      have hv : jsonSafe v = true ∧ jsonSafeFields rest = true := by
        simpa [jsonSafeFields, Bool.and_eq_true] using h
      have hsv := jsonStrip_of_safe v hv.1
      have hsr := jsonStripFields_of_safe rest hv.2
      cases v with
      | undefined => simp [jsonSafe] at hv
      | null => simp [jsonStripFields, jsonStrip, hsr]
      | boolean b => simp [jsonStripFields, jsonStrip, hsr]
      | number n => simp [jsonStripFields, jsonStrip, hsr]
      | str s => simp [jsonStripFields, jsonStrip, hsr]
      | obj fs2 => simp [jsonStripFields, hsr, hsv]

end

theorem getCached_of_record (d : JSVal) (T T' : Int) (rmF : Bool) (st : St)
    (hst : st.storage = CacheStr.parsed (JSVal.obj [("data", d), ("timestamp", JSVal.number T)]))
    (hT : T' - T < CACHE_EXPIRE) :
    getCachedUserInfo false rmF T' st = (d, st) := by
  simp [getCachedUserInfo, hst, getProp, List.lookup, freshCheck, toNumber, hT]

theorem getCached_frame (rF rmF : Bool) (n : Int) (st : St) :
    (getCachedUserInfo rF rmF n st).2 = st
    ∨ getCachedUserInfo rF rmF n st = (JSVal.null, { st with storage := CacheStr.absent }) := by
  unfold getCachedUserInfo clearCachedUserInfo
  split
  · exact Or.inl rfl
  · split
    · exact Or.inl rfl
    · exact Or.inl rfl
    · split
      · exact Or.inl rfl
      · split
        · split
          · exact Or.inl rfl
          · exact Or.inl rfl
        · split
          · exact Or.inl rfl
          · exact Or.inr rfl

theorem getCached_truthy_frame (rF rmF : Bool) (n : Int) (st : St)
    (h : truthy (getCachedUserInfo rF rmF n st).1 = true) :
    (getCachedUserInfo rF rmF n st).2 = st := by
  rcases getCached_frame rF rmF n st with h2 | h2
  · exact h2
  · rw [h2] at h; simp [truthy] at h

theorem reportError_cases (a : String) (e : JSErr) (st : St) :
    reportError a e st = .ok { st with reports := st.reports ++ [(a, e)] }
    ∨ ∃ x, reportError a e st = .error x := by
  unfold reportError
  cases h1 : errProp e "message" with
  | error x => exact Or.inr ⟨x, rfl⟩
  | ok _ =>
    cases h2 : errProp e "stack" with
    | error x => exact Or.inr ⟨x, rfl⟩
    | ok _ => exact Or.inl rfl

theorem fetchAndCache_fetchCalls (beh : Beh) (now : Int) (st : St) :
    (fetchAndCache beh now st).2.fetchCalls = st.fetchCalls + 1 := by
  unfold fetchAndCache catchBlock
  cases beh.fetch with
  | rejects e =>
    rcases reportError_cases "getUserInfo" (.thrown e) { st with fetchCalls := st.fetchCalls + 1 }
      with h | ⟨x, h⟩ <;> simp [h]
  | resolves res =>
    cases h : getProp res "userInfo" with
    | error e =>
      rcases reportError_cases "getUserInfo" e { st with fetchCalls := st.fetchCalls + 1 }
        with h2 | ⟨x, h2⟩ <;> simp [h, h2]
    | ok u =>
      cases hw : beh.writeFails <;> simp [h, setCachedUserInfo, hw]

theorem catchBlock_fst (e : JSErr) (st st' : St) :
    (catchBlock e st).1 = (catchBlock e st').1 := by
  unfold catchBlock reportError
  cases h1 : errProp e "message" <;> cases h2 : errProp e "stack" <;> simp [h1, h2]

theorem fetchAndCache_fst_storage (beh : Beh) (now : Int) (st st' : St) :
    (fetchAndCache beh now st).1 = (fetchAndCache beh now st').1 := by
  unfold fetchAndCache
  cases beh.fetch with
  | rejects e => exact catchBlock_fst (.thrown e) _ _
  | resolves res =>
    cases h : getProp res "userInfo" with
    | error e => simp [h]; exact catchBlock_fst e _ _
    | ok u => simp [h]

theorem recordVal_of_safe (P : JSVal) (T : Int) (hP : jsonSafe P = true) :
    recordVal P T = JSVal.obj [("data", jsonStrip P), ("timestamp", JSVal.number T)] := by
  cases P <;> first | rfl | simp [jsonSafe] at hP

/-- Claim C1: round-trip within TTL.  A JSON-representable profile P written
by setCachedUserInfo at instant T and read back by getCachedUserInfo at any
instant T' with T' - T below the TTL is returned unchanged. -/
theorem roundtrip_within_ttl (P : JSVal) (T T' : Int) (st : St)
    (hP : jsonSafe P = true) (hT : T' - T < CACHE_EXPIRE) :
    (getCachedUserInfo false false T' (setCachedUserInfo false T P st)).1 = P := by
  have hset : (setCachedUserInfo false T P st).storage
      = CacheStr.parsed (JSVal.obj [("data", jsonStrip P), ("timestamp", JSVal.number T)]) := by
    simp [setCachedUserInfo, recordVal_of_safe P T hP]
  rw [getCached_of_record (jsonStrip P) T T' false _ hset hT]
  exact jsonStrip_of_safe P hP

/-- Witness for roundtrip_within_ttl: the concrete profile written at 0 is
read back unchanged at 500. -/
theorem roundtrip_within_ttl_witness :
    jsonSafe profA = true ∧ ((500 : Int) - 0 < CACHE_EXPIRE)
    ∧ (getCachedUserInfo false false 500 (setCachedUserInfo false 0 profA stA)).1 = profA :=
  ⟨rfl, by decide, roundtrip_within_ttl profA 0 500 stA rfl (by decide)⟩

/-- Claim C2: eviction on expiry.  A profile written at instant T and read
at instant T' with T' - T at or beyond the TTL yields null, and the read
leaves the storage with no record under the cache key; the boundary is
strict since T' - T equal to the TTL already evicts. -/
theorem expiry_evicts (P : JSVal) (T T' : Int) (st : St)
    (hT : CACHE_EXPIRE ≤ T' - T) :
    getCachedUserInfo false false T' (setCachedUserInfo false T P st)
      = (JSVal.null, { st with storage := CacheStr.absent }) := by
  have hnl : ¬ (T' - T < CACHE_EXPIRE) := not_lt.mpr hT
  cases P <;>
    simp [setCachedUserInfo, getCachedUserInfo, recordVal, getProp, List.lookup,
      freshCheck, toNumber, hnl, clearCachedUserInfo]

/-- Witness for expiry_evicts at the exact TTL boundary: written at 0,
read at 86400000, the record is gone and null is returned. -/
theorem expiry_evicts_witness :
    CACHE_EXPIRE ≤ (86400000 : Int) - 0
    ∧ getCachedUserInfo false false 86400000 (setCachedUserInfo false 0 profA stA)
        = (JSVal.null, { stA with storage := CacheStr.absent }) :=
  ⟨by decide, expiry_evicts profA 0 86400000 stA (by decide)⟩

theorem fetchAndCache_ok_of_benign (beh : Beh) (now : Int) (st : St)
    (h : benignFetch beh.fetch = true) :
    ∃ v st', fetchAndCache beh now st = (Except.ok v, st') := by
  unfold fetchAndCache catchBlock
  cases hf : beh.fetch with
  | rejects e =>
    rw [hf] at h
    cases e with
    | null => simp [benignFetch] at h
    | undefined => simp [benignFetch] at h
    | boolean b => exact ⟨_, _, rfl⟩
    | number n => exact ⟨_, _, rfl⟩
    | str s => exact ⟨_, _, rfl⟩
    | obj fs => exact ⟨_, _, rfl⟩
  | resolves res =>
    cases res with
    | null => exact ⟨_, _, rfl⟩
    | undefined => exact ⟨_, _, rfl⟩
    | boolean b => exact ⟨_, _, rfl⟩
    | number n => exact ⟨_, _, rfl⟩
    | str s => exact ⟨_, _, rfl⟩
    | obj fs => exact ⟨_, _, rfl⟩

theorem fetchAndCache_rejects_benign (e : JSVal) (beh : Beh) (now : Int) (st : St)
    (hf : beh.fetch = FetchBeh.rejects e) (hbenign : benignFetch (FetchBeh.rejects e) = true) :
    fetchAndCache beh now st
      = (Except.ok JSVal.null,
         { st with fetchCalls := st.fetchCalls + 1,
                   reports := st.reports ++ [("getUserInfo", JSErr.thrown e)] }) := by
  unfold fetchAndCache catchBlock
  rw [hf]
  cases e with
  | null => simp [benignFetch] at hbenign
  | undefined => simp [benignFetch] at hbenign
  | boolean b => rfl
  | number n => rfl
  | str s => rfl
  | obj fs => rfl

/-- Claim C3, counterexample: with an empty cache and the fetch collaborator
rejecting with a bare JS null, getUserInfo does not absorb the failure: the
error.message read inside reportError throws a TypeError, and getUserInfo
rejects with it, so an exception crosses the public boundary. -/
theorem getUserInfo_rejects_on_null_rejection :
    getUserInfo true ⟨false, false, false, FetchBeh.rejects JSVal.null⟩ 0 0 stA
      = (Except.error (JSErr.typeError "Cannot read properties of null - reading message"),
         ⟨CacheStr.absent, 1, []⟩) := rfl

/-- Claim C3, amended: whenever the fetch outcome is not a rejection with a
bare null or undefined value, getUserInfo resolves to a value for every
input, every storage fault pattern and every state: no exception escapes. -/
theorem getUserInfo_absorbs_benign_failures (force : Bool) (beh : Beh) (n₁ n₂ : Int)
    (st : St) (h : benignFetch beh.fetch = true) :
    ∃ v st', getUserInfo force beh n₁ n₂ st = (Except.ok v, st') := by
  unfold getUserInfo
  cases force with
  | true => simpa using fetchAndCache_ok_of_benign beh n₂ st h
  | false =>
    cases hgc : getCachedUserInfo beh.readFails beh.removeFails n₁ st with
    | mk c st₁ =>
      cases htr : truthy c with
      | true => exact ⟨c, st₁, by simp [hgc, htr]⟩
      | false =>
        have h2 := fetchAndCache_ok_of_benign beh n₂ st₁ h
        rcases h2 with ⟨v, st', h2⟩
        exact ⟨v, st', by simp [hgc, htr, h2]⟩

/-- Witness for getUserInfo_absorbs_benign_failures: every storage primitive
throwing and the fetch rejecting with a string still resolves. -/
theorem getUserInfo_absorbs_benign_failures_witness :
    benignFetch (FetchBeh.rejects (JSVal.str "boom")) = true
    ∧ ∃ v st', getUserInfo false ⟨true, true, true, FetchBeh.rejects (JSVal.str "boom")⟩ 3 4 stA
        = (Except.ok v, st') :=
  ⟨rfl, getUserInfo_absorbs_benign_failures false ⟨true, true, true, FetchBeh.rejects (JSVal.str "boom")⟩ 3 4 stA rfl⟩

/-- Claim C4, counterexample: first, a fetch rejection with a bare JS null
makes getUserInfo reject instead of resolving to null; second, with an
expired stored record and a benign fetch rejection, the stored record is
gone after the call, not left exactly as it was before it. -/
theorem fetch_failure_atomicity_cex :
    (getUserInfo true ⟨false, false, false, FetchBeh.rejects JSVal.null⟩ 0 0
        ⟨CacheStr.parsed (recordVal profA 0), 0, []⟩).1
      = Except.error (JSErr.typeError "Cannot read properties of null - reading message")
    ∧ (getUserInfo false ⟨false, false, false, FetchBeh.rejects (JSVal.str "boom")⟩ 86400000 86400001
        ⟨CacheStr.parsed (recordVal profA 0), 5, []⟩).2.storage = CacheStr.absent :=
  ⟨rfl, rfl⟩

/-- Claim C4, amended: whenever the fetch collaborator is reached and
rejects with a value that is not a bare null or undefined, getUserInfo
resolves to null, the error is handed to the reportError sink, and no cache
write happens: the final state is exactly the state the initial cache read
left, with only the fetch counter and the report list extended. -/
theorem fetch_failure_null_reported_no_write (force : Bool) (e : JSVal)
    (rF rmF wF : Bool) (n₁ n₂ : Int) (st : St)
    (hbenign : benignFetch (FetchBeh.rejects e) = true)
    (hreach : force = true ∨ truthy (getCachedUserInfo rF rmF n₁ st).1 = false) :
    getUserInfo force ⟨rF, rmF, wF, FetchBeh.rejects e⟩ n₁ n₂ st
      = (Except.ok JSVal.null,
         { (if force then st else (getCachedUserInfo rF rmF n₁ st).2) with
             fetchCalls := (if force then st else (getCachedUserInfo rF rmF n₁ st).2).fetchCalls + 1,
             reports := (if force then st else (getCachedUserInfo rF rmF n₁ st).2).reports
               ++ [("getUserInfo", JSErr.thrown e)] }) := by
  unfold getUserInfo
  cases force with
  | true =>
    simpa using fetchAndCache_rejects_benign e ⟨rF, rmF, wF, FetchBeh.rejects e⟩ n₂ st rfl hbenign
  | false =>
    have htr : truthy (getCachedUserInfo rF rmF n₁ st).1 = false := by
      rcases hreach with h | h
      · exact absurd h (by simp)
      · exact h
    cases hgc : getCachedUserInfo rF rmF n₁ st with
    | mk c st₁ =>
      rw [hgc] at htr
      have hfc := fetchAndCache_rejects_benign e ⟨rF, rmF, wF, FetchBeh.rejects e⟩ n₂ st₁ rfl hbenign
      simp [hgc, htr, hfc]

/-- Witness for fetch_failure_null_reported_no_write: empty cache, fetch
rejects with a string; getUserInfo resolves to null, reports it, and the
storage stays absent. -/
theorem fetch_failure_null_reported_no_write_witness :
    benignFetch (FetchBeh.rejects (JSVal.str "boom")) = true
    ∧ getUserInfo false ⟨false, false, false, FetchBeh.rejects (JSVal.str "boom")⟩ 1 2 stA
        = (Except.ok JSVal.null,
           ⟨CacheStr.absent, 1, [("getUserInfo", JSErr.thrown (JSVal.str "boom"))]⟩) :=
  ⟨rfl, fetch_failure_null_reported_no_write false (JSVal.str "boom") false false false 1 2 stA rfl
    (Or.inr rfl)⟩

/-- Claim C5: force-refresh bypass.  getUserInfo(true) never consults the
cached value: it always makes exactly one fetch invocation whatever the
cache state, and when the fetch resolves with a response whose userInfo
read succeeds and the storage write does not throw, the stored record is
overwritten with the fetched profile stamped at the post-fetch instant and
that profile is returned. -/
theorem force_refresh_bypasses_cache (beh : Beh) (n₁ n₂ : Int) (st : St) :
    (getUserInfo true beh n₁ n₂ st).2.fetchCalls = st.fetchCalls + 1
    ∧ (∀ cs : CacheStr,
        (getUserInfo true beh n₁ n₂ { st with storage := cs }).1 = (getUserInfo true beh n₁ n₂ st).1)
    ∧ (∀ res u, beh.fetch = FetchBeh.resolves res → getProp res "userInfo" = Except.ok u →
        beh.writeFails = false →
        (getUserInfo true beh n₁ n₂ st).1 = Except.ok u
        ∧ (getUserInfo true beh n₁ n₂ st).2.storage = CacheStr.parsed (recordVal u n₂)) := by
  refine ⟨?_, ?_, ?_⟩
  · simpa [getUserInfo] using fetchAndCache_fetchCalls beh n₂ st
  · intro cs
    simpa [getUserInfo] using fetchAndCache_fst_storage beh n₂ { st with storage := cs } st
  · intro res u hf hp hw
    constructor <;> simp [getUserInfo, fetchAndCache, hf, hp, hw, setCachedUserInfo]

/-- Witness for force_refresh_bypasses_cache: an unexpired valid record is
in storage, yet the forced call fetches, returns the fetched profile and
overwrites the record with the fresh timestamp. -/
theorem force_refresh_bypasses_cache_witness :
    behResolve.fetch = FetchBeh.resolves (JSVal.obj [("userInfo", profA)])
    ∧ getProp (JSVal.obj [("userInfo", profA)]) "userInfo" = Except.ok profA
    ∧ behResolve.writeFails = false
    ∧ (getUserInfo true behResolve 0 7 stRec).1 = Except.ok profA
    ∧ (getUserInfo true behResolve 0 7 stRec).2.storage = CacheStr.parsed (recordVal profA 7)
    ∧ (getUserInfo true behResolve 0 7 stRec).2.fetchCalls = stRec.fetchCalls + 1 :=
  ⟨rfl, rfl, rfl,
   ((force_refresh_bypasses_cache behResolve 0 7 stRec).2.2
     (JSVal.obj [("userInfo", profA)]) profA rfl rfl rfl).1,
   ((force_refresh_bypasses_cache behResolve 0 7 stRec).2.2
     (JSVal.obj [("userInfo", profA)]) profA rfl rfl rfl).2,
   (force_refresh_bypasses_cache behResolve 0 7 stRec).1⟩

/-- Claim C6: fail-open on corruption.  Any unparseable stored string makes
getCachedUserInfo return null leaving the state untouched, exactly like the
absent-record case, and getUserInfo then invokes the fetch collaborator. -/
theorem corrupt_record_fail_open (s : String) (rF rmF : Bool) (n₁ n₂ : Int) (beh : Beh)
    (fc : Nat) (rp : List (String × JSErr)) :
    getCachedUserInfo rF rmF n₁ ⟨CacheStr.unparseable s, fc, rp⟩
        = (JSVal.null, ⟨CacheStr.unparseable s, fc, rp⟩)
    ∧ getCachedUserInfo rF rmF n₁ ⟨CacheStr.absent, fc, rp⟩
        = (JSVal.null, ⟨CacheStr.absent, fc, rp⟩)
    ∧ (getUserInfo false beh n₁ n₂ ⟨CacheStr.unparseable s, fc, rp⟩).2.fetchCalls = fc + 1 := by
  refine ⟨by cases rF <;> rfl, by cases rF <;> rfl, ?_⟩
  have h1 : getCachedUserInfo beh.readFails beh.removeFails n₁ ⟨CacheStr.unparseable s, fc, rp⟩
      = (JSVal.null, ⟨CacheStr.unparseable s, fc, rp⟩) := by
    cases hb : beh.readFails <;> simp [getCachedUserInfo, hb]
  simpa [getUserInfo, h1, truthy]
    using fetchAndCache_fetchCalls beh n₂ ⟨CacheStr.unparseable s, fc, rp⟩

/-- Claim C7, counterexample: a failed storage read does not leave the
stored record absent: with a present record and a throwing read,
getCachedUserInfo returns null and the state, record included, is exactly
as before. -/
theorem failed_read_keeps_record :
    getCachedUserInfo true false 0 stRec = (JSVal.null, stRec) := rfl

/-- Claim C7, amended: the stored record becomes present only through a
successful write; it becomes absent on a successful explicit evict or on
expiry detected during a read; a read never creates a record, a failed
write or evict leaves it unchanged, and a failed storage read leaves the
whole state, record included, unchanged. -/
theorem record_transition_rules (rF rmF : Bool) (n : Int) (P : JSVal) (st : St) :
    ((getCachedUserInfo rF rmF n st).2.storage = CacheStr.absent
      ∨ (getCachedUserInfo rF rmF n st).2.storage = st.storage)
    ∧ (clearCachedUserInfo false st).storage = CacheStr.absent
    ∧ (clearCachedUserInfo true st).storage = st.storage
    ∧ (setCachedUserInfo false n P st).storage = CacheStr.parsed (recordVal P n)
    ∧ (setCachedUserInfo true n P st).storage = st.storage
    ∧ (getCachedUserInfo true rmF n st).2 = st := by
  refine ⟨?_, rfl, rfl, rfl, rfl, rfl⟩
  rcases getCached_frame rF rmF n st with h | h
  · exact Or.inr (by rw [h])
  · exact Or.inl (by rw [h])

/-- Claim C8: cache-hit frame.  When forceRefresh is false and the cache
read yields a truthy value, getUserInfo returns exactly that value and the
final state is the initial one: no fetch invocation, no report, no storage
write. -/
theorem cache_hit_frame (beh : Beh) (n₁ n₂ : Int) (st : St)
    (h : truthy (getCachedUserInfo beh.readFails beh.removeFails n₁ st).1 = true) :
    getUserInfo false beh n₁ n₂ st
      = (Except.ok (getCachedUserInfo beh.readFails beh.removeFails n₁ st).1, st) := by
  have hfr := getCached_truthy_frame beh.readFails beh.removeFails n₁ st h
  cases hgc : getCachedUserInfo beh.readFails beh.removeFails n₁ st with
  | mk c st₁ =>
    rw [hgc] at h hfr
    simp only [getUserInfo]
    simp [hgc, h, hfr]

/-- Witness for cache_hit_frame: a fresh record is stored, the fetch
collaborator would even reject with a bare null, yet the call returns the
cached profile and the state is untouched. -/
theorem cache_hit_frame_witness :
    truthy (getCachedUserInfo false false 500 stRec).1 = true
    ∧ getUserInfo false ⟨false, false, false, FetchBeh.rejects JSVal.null⟩ 500 501 stRec
        = (Except.ok profA, stRec) :=
  ⟨rfl, cache_hit_frame ⟨false, false, false, FetchBeh.rejects JSVal.null⟩ 500 501 stRec rfl⟩

/-- Claim C9: singleton invariant.  Constructing UserInfoManager with an
existing instance in the static slot returns that very instance and leaves
the slot as is; the first construction fills the slot with the instance the
module exports, whose cache key and TTL are the fixed constants. -/
theorem singleton_instance_shared :
    (∀ i : UserInfoManagerInst, newUserInfoManager (some i) = (i, some i))
    ∧ newUserInfoManager none = (userInfoManager, some userInfoManager)
    ∧ (newUserInfoManager (newUserInfoManager none).2).1 = userInfoManager
    ∧ userInfoManager.cacheKey = "user_info_cache"
    ∧ userInfoManager.CACHE_EXPIRE = 86400000 :=
  ⟨fun _ => rfl, rfl, rfl, rfl, rfl⟩

/-- Claim C10: falsy-profile edge case.  With an unexpired stored record
whose data field is falsy, getCachedUserInfo does return that falsy datum,
but getUserInfo(false) treats it as a miss and invokes the fetch
collaborator anyway. -/
theorem falsy_cached_data_refetches (d : JSVal) (T T' n₂ : Int) (beh : Beh)
    (fc : Nat) (rp : List (String × JSErr))
    (hfalsy : truthy d = false) (hfresh : T' - T < CACHE_EXPIRE)
    (hread : beh.readFails = false) :
    (getCachedUserInfo false beh.removeFails T'
        ⟨CacheStr.parsed (JSVal.obj [("data", d), ("timestamp", JSVal.number T)]), fc, rp⟩).1 = d
    ∧ (getUserInfo false beh T' n₂
        ⟨CacheStr.parsed (JSVal.obj [("data", d), ("timestamp", JSVal.number T)]), fc, rp⟩).2.fetchCalls
      = fc + 1 := by
  have hrec := getCached_of_record d T T' beh.removeFails
      ⟨CacheStr.parsed (JSVal.obj [("data", d), ("timestamp", JSVal.number T)]), fc, rp⟩ rfl hfresh
  refine ⟨by rw [hrec], ?_⟩
  simp only [getUserInfo, hread]
  rw [hrec]
  simpa [hfalsy]
    using fetchAndCache_fetchCalls beh n₂
      ⟨CacheStr.parsed (JSVal.obj [("data", d), ("timestamp", JSVal.number T)]), fc, rp⟩

/-- Witness for falsy_cached_data_refetches: the record holds the falsy
datum null with a fresh timestamp, and the fetch counter still goes up. -/
theorem falsy_cached_data_refetches_witness :
    truthy JSVal.null = false ∧ ((1 : Int) - 0 < CACHE_EXPIRE) ∧ behResolve.readFails = false
    ∧ (getCachedUserInfo false behResolve.removeFails 1
        ⟨CacheStr.parsed (JSVal.obj [("data", JSVal.null), ("timestamp", JSVal.number 0)]), 0, []⟩).1
      = JSVal.null
    ∧ (getUserInfo false behResolve 1 2
        ⟨CacheStr.parsed (JSVal.obj [("data", JSVal.null), ("timestamp", JSVal.number 0)]), 0, []⟩).2.fetchCalls
      = 1 :=
  ⟨rfl, by decide, rfl,
   (falsy_cached_data_refetches JSVal.null 0 1 2 behResolve 0 [] rfl (by decide) rfl).1,
   (falsy_cached_data_refetches JSVal.null 0 1 2 behResolve 0 [] rfl (by decide) rfl).2⟩
